import Mathlib

/-!
Verification development for the Platform 5ive lead-generation chat dashboard
(Flask backend: `routes.py`, `ai_lead_extractor.py`, `models.py`).

The Python code is shallowly embedded: ORM rows become Lean structures, the
database becomes explicit lists of rows, route handlers and service functions
become pure state-passing functions, and `datetime` values become integers
(seconds, with a flag recording timezone-awareness).  Every definition mirrors
the corresponding Python function; theorems below settle the specified
behavioural claims about them.
-/

set_option maxHeartbeats 1000000

namespace Platform5ive

/-- `listHasPrefix l p` : `p` is a prefix of `l` (on characters). -/
def listHasPrefix : List Char → List Char → Bool
  | _, [] => true
  | [], _ :: _ => false
  | a :: l, b :: p => a == b && listHasPrefix l p

/-- `listHasSub l p` : `p` occurs as a contiguous sublist of `l`. -/
def listHasSub : List Char → List Char → Bool
  | [], p => p.isEmpty
  | a :: l, p => listHasPrefix (a :: l) p || listHasSub l p

/-- Python's `sub in s` substring test on strings. -/
def pyIn (sub s : String) : Bool :=
  listHasSub s.toList sub.toList

/-- Python's `s.lower()` (character-wise lowercasing). -/
def pyLower (s : String) : String := ⟨s.data.map Char.toLower⟩

/-- A Python `datetime` value, reduced to what the code observes: the instant
it denotes read as a UTC-naive number of seconds (`naiveUtc`), and whether the
original value carried a timezone (`tzAware`).  The code's normalisation
`dt.astimezone(pytz.UTC).replace(tzinfo=None)` (applied when `tzinfo` is not
`None`, identity otherwise) therefore returns `naiveUtc`. -/
structure PyDateTime where
  naiveUtc : Int
  tzAware : Bool := false
deriving DecidableEq, Repr

/-- The normalisation performed throughout `routes.py`:
`if dt.tzinfo is not None: dt = dt.astimezone(pytz.UTC).replace(tzinfo=None)`. -/
def toUtcNaive (dt : PyDateTime) : Int := dt.naiveUtc

/-- Row of `chat_sessions_for_dashboard` (model `ChatSessionForDashboard`). -/
structure ChatMessage where
  session_id : String
  dateTime : PyDateTime
  userAi : Option String := none
  messageStr : Option String := none
deriving DecidableEq, Repr

/-- Row of `leads` (model `Lead`): the contact and qualification fields. -/
structure Lead where
  session_id : String
  full_name : Option String := none
  company_name : Option String := none
  email : Option String := none
  phone_number : Option String := none
  ai_interest_reason : Option String := none
  ai_implementation_known : Option String := none
  business_challenges : Option String := none
  business_goals_6_12m : Option String := none
  ai_budget_allocated : Option String := none
  ai_implementation_timeline : Option String := none
deriving DecidableEq, Repr

/-- Row of `messenger_sessions` (model `MessengerSession`), with the model's
column defaults. -/
structure MessengerSession where
  id : Nat
  session_id : String
  conversation_start : Int
  last_message_time : Int
  message_count : Nat := 1
  session_summary : Option String := none
  status : String := "active"
  completion_status : String := "incomplete"
  ai_engaged : Bool := false
  ai_response : Option String := none
  session_source : String := "messenger"
  webhook_delivered : Bool := false
  webhook_delivery_at : Option Int := none
  webhook_url : Option String := none
  webhook_response : Option String := none
  qa_status : String := "unchecked"
  qa_status_updated_by : Option String := none
  qa_status_updated_at : Option Int := none
  qa_notes : Option String := none
  qa_notes_updated_at : Option Int := none
  dev_feedback : Option String := none
  dev_feedback_by : Option String := none
  dev_feedback_at : Option Int := none
deriving DecidableEq, Repr

/-- One entry of the in-memory `app.completion_notifications` list. -/
structure Notification where
  session_id : String
  timestamp : Int
  message : String
  kind : String
deriving DecidableEq, Repr

/-- `true` iff the key obtained by `f` is distinct across the list. -/
def nodupBy {α β : Type} [BEq β] (f : α → β) : List α → Bool
  | [] => true
  | a :: l => !(l.any fun b => f b == f a) && nodupBy f l

/-- The relational store: the three tables the claims touch, plus the next
primary key handed out by the database for `messenger_sessions`. -/
structure DB where
  chat_messages : List ChatMessage := []
  messenger_sessions : List MessengerSession := []
  leads : List Lead := []
  next_session_pk : Nat := 1
deriving DecidableEq, Repr

/-- Well-formedness guaranteed by the schema (`models.py`): primary keys of
`messenger_sessions` are distinct, and `session_id` is declared `unique=True`
on both `messenger_sessions` and `leads`. -/
def DB.wf (db : DB) : Prop :=
  nodupBy (·.id) db.messenger_sessions = true ∧
  nodupBy (·.session_id) db.messenger_sessions = true ∧
  nodupBy (·.session_id) db.leads = true

instance (db : DB) : Decidable db.wf := by
  unfold DB.wf; infer_instance

/-- The full in-process state: database plus the in-memory notification list
(`app.completion_notifications`). -/
structure AppState where
  db : DB := {}
  completion_notifications : List Notification := []
deriving DecidableEq, Repr

/-! ### Lead fields and the fill-only merge (`ai_lead_extractor._process_lead_data`) -/

/-- The ten lead data attributes that extracted values are written to. -/
inductive LeadField where
  | full_name | company_name | email | phone_number
  | ai_interest_reason | ai_implementation_known | business_challenges
  | business_goals_6_12m | ai_budget_allocated | ai_implementation_timeline
deriving DecidableEq, Repr

/-- `getattr(lead, field)` for the lead data attributes. -/
def Lead.getF (l : Lead) : LeadField → Option String
  | .full_name => l.full_name
  | .company_name => l.company_name
  | .email => l.email
  | .phone_number => l.phone_number
  | .ai_interest_reason => l.ai_interest_reason
  | .ai_implementation_known => l.ai_implementation_known
  | .business_challenges => l.business_challenges
  | .business_goals_6_12m => l.business_goals_6_12m
  | .ai_budget_allocated => l.ai_budget_allocated
  | .ai_implementation_timeline => l.ai_implementation_timeline

/-- `setattr(lead, field, value)` for the lead data attributes. -/
def Lead.setF (l : Lead) : LeadField → String → Lead
  | .full_name, v => { l with full_name := some v }
  | .company_name, v => { l with company_name := some v }
  | .email, v => { l with email := some v }
  | .phone_number, v => { l with phone_number := some v }
  | .ai_interest_reason, v => { l with ai_interest_reason := some v }
  | .ai_implementation_known, v => { l with ai_implementation_known := some v }
  | .business_challenges, v => { l with business_challenges := some v }
  | .business_goals_6_12m, v => { l with business_goals_6_12m := some v }
  | .ai_budget_allocated, v => { l with ai_budget_allocated := some v }
  | .ai_implementation_timeline, v => { l with ai_implementation_timeline := some v }

/-- `hasattr(existing_lead, field)` for a JSON key: which of the lead data
attributes (if any) the key names.  Bookkeeping columns (`id`, `session_id`,
`created_at`, `updated_at`) are not extraction targets and are left out. -/
def parseLeadField : String → Option LeadField
  | "full_name" => some .full_name
  | "company_name" => some .company_name
  | "email" => some .email
  | "phone_number" => some .phone_number
  | "ai_interest_reason" => some .ai_interest_reason
  | "ai_implementation_known" => some .ai_implementation_known
  | "business_challenges" => some .business_challenges
  | "business_goals_6_12m" => some .business_goals_6_12m
  | "ai_budget_allocated" => some .ai_budget_allocated
  | "ai_implementation_timeline" => some .ai_implementation_timeline
  | _ => none

/-- The `should_update` test of `_process_lead_data` (`ai_lead_extractor.py`
lines 160-167): update when the current value is `None`, `""`, `"Unknown"`,
or — for `full_name` only — also `"Web Chat User"`. -/
def shouldUpdateField (f : LeadField) (current : Option String) : Bool :=
  match current with
  | none => true
  | some v =>
      v == "" || v == "Unknown" ||
      (f == LeadField.full_name && (v == "Web Chat User" || v == "Unknown"))

/-- `clean_data = {k: v for k, v in extracted_data.items() if v is not None
and v != ""}`: drop null and empty values from the extracted JSON object. -/
def cleanData (extracted : List (String × Option String)) : List (String × String) :=
  extracted.filterMap fun kv =>
    match kv.2 with
    | none => none
    | some v => if v == "" then none else some (kv.1, v)

/-- One iteration of the update loop of `_process_lead_data`: write the
cleaned item only when its key names a lead attribute and `should_update`
holds for the current value. -/
def leadMergeStep (acc : Lead) (kv : String × String) : Lead :=
  match parseLeadField kv.1 with
  | none => acc
  | some f => if shouldUpdateField f (acc.getF f) then acc.setF f kv.2 else acc

/-- The update loop of `_process_lead_data` on an existing lead. -/
def updateLeadFields (l : Lead) (clean : List (String × String)) : Lead :=
  clean.foldl leadMergeStep l

/-- The creation branch of `_process_lead_data`: a fresh lead for the session
with every cleaned attribute set unconditionally. -/
def newLeadFromClean (sid : String) (clean : List (String × String)) : Lead :=
  clean.foldl
    (fun acc kv =>
      match parseLeadField kv.1 with
      | none => acc
      | some f => acc.setF f kv.2)
    { session_id := sid }

/-- `AILeadExtractor._process_lead_data` (`ai_lead_extractor.py` 142-202):
clean the extracted object; update the existing lead under the fill-only
policy, or create a new lead only when a `full_name` was extracted. -/
def processLeadData (db : DB) (sid : String) (extracted : List (String × Option String)) : DB :=
  let clean := cleanData extracted
  if clean.isEmpty then db
  else
    match db.leads.find? (fun l => l.session_id == sid) with
    | some _ =>
        { db with
          leads := db.leads.map fun l =>
            if l.session_id == sid then updateLeadFields l clean else l }
    | none =>
        if (clean.find? (fun kv => kv.1 == "full_name")).isSome then
          { db with leads := db.leads ++ [newLeadFromClean sid clean] }
        else db

/-! ### The `upsert_lead` route (`routes.py` 262-301, update branch) -/

/-- `'k' in data` / `data['k']` on the request JSON object (possible `null`
values are the inner `Option`). -/
def jsonGet (data : List (String × Option String)) (k : String) : Option (Option String) :=
  (data.find? fun kv => kv.1 == k).map (·.2)

/-- One conditional assignment `if 'k' in data: lead.f = data['k']`. -/
def upsertStep (data : List (String × Option String)) (k : String)
    (set : Lead → Option String → Lead) (l : Lead) : Lead :=
  match jsonGet data k with
  | some v => set l v
  | none => l

/-- The update branch of the `upsert_lead` route: every provided field is
assigned unconditionally, with no placeholder test. -/
def upsertLeadUpdate (l : Lead) (data : List (String × Option String)) : Lead :=
  let l := upsertStep data "full_name" (fun l v => { l with full_name := v }) l
  let l := upsertStep data "company_name" (fun l v => { l with company_name := v }) l
  let l := upsertStep data "email" (fun l v => { l with email := v }) l
  let l := upsertStep data "phone_number" (fun l v => { l with phone_number := v }) l
  let l := upsertStep data "ai_interest_reason" (fun l v => { l with ai_interest_reason := v }) l
  let l := upsertStep data "ai_implementation_known" (fun l v => { l with ai_implementation_known := v }) l
  let l := upsertStep data "business_challenges" (fun l v => { l with business_challenges := v }) l
  let l := upsertStep data "business_goals_6_12m" (fun l v => { l with business_goals_6_12m := v }) l
  let l := upsertStep data "ai_budget_allocated" (fun l v => { l with ai_budget_allocated := v }) l
  let l := upsertStep data "ai_implementation_timeline" (fun l v => { l with ai_implementation_timeline := v }) l
  l

/-! ### The extraction pipeline (`ai_lead_extractor.py`) -/

/-- `AILeadExtractor._analyze_conversation_with_ai`: the external
chat-completion call either raises (`Except.error`) or returns a response
body; `json.loads` either fails (`none`) or yields a JSON object.  Both
failures are swallowed by the `try/except`, which returns `None`. -/
def analyzeConversationWithAi (callResult : Except String String)
    (parseJson : String → Option (List (String × Option String))) :
    Option (List (String × Option String)) :=
  match callResult with
  | .error _ => none
  | .ok body => parseJson body

/-- `AILeadExtractor.extract_lead_information`: no messages → `None`; a falsy
(failed or empty) analysis → `None` with the lead table untouched; otherwise
the extracted object is merged by `_process_lead_data`. -/
def extractLeadInformation (db : DB) (sid : String) (callResult : Except String String)
    (parseJson : String → Option (List (String × Option String))) :
    Option (List (String × Option String)) × DB :=
  let messages := db.chat_messages.filter fun m => m.session_id == sid
  if messages.isEmpty then (none, db)
  else
    match analyzeConversationWithAi callResult parseJson with
    | none => (none, db)
    | some extracted =>
        if extracted.isEmpty then (none, db)
        else (some extracted, processLeadData db sid extracted)

/-- `AILeadExtractor.process_session_for_lead_extraction`: `True` exactly when
extraction produced data, `False` otherwise; never an exception. -/
def processSessionForLeadExtraction (db : DB) (sid : String)
    (callResult : Except String String)
    (parseJson : String → Option (List (String × Option String))) : Bool × DB :=
  match extractLeadInformation db sid callResult parseJson with
  | (some _, db') => (true, db')
  | (none, db') => (false, db')

/-! ### Completion-status heuristics (`routes.py`) -/

/-- `msg.messageStr and 'within 24 hours' in msg.messageStr.lower()`
(`ensure_messenger_session_exists`, lines 397-399): a `None` or empty
message string is falsy and never matches. -/
def msgHasCompletionPhrase (m : ChatMessage) : Bool :=
  match m.messageStr with
  | none => false
  | some s => !(s == "") && pyIn "within 24 hours" (pyLower s)

/-- The SQL filter `func.lower(messageStr).contains('within 24 hours')`
(`sync_messenger_session_data`, lines 478-480): `NULL` never matches. -/
def msgHasCompletionPhraseSql (m : ChatMessage) : Bool :=
  match m.messageStr with
  | none => false
  | some s => pyIn "within 24 hours" (pyLower s)

/-- The status computation of `ensure_messenger_session_exists`
(`routes.py` 395-417): `complete` on the booking phrase, else `in_progress`
when the AI engaged and the last message is under 12 hours old, else
`incomplete`.  (`messages` is nonempty on every call; the `none` arm of
`getLast?` is unreachable then.) -/
def computeEnsureStatus (messages : List ChatMessage) (nowUtc : Int) : String :=
  let ai_engaged := messages.any fun m => m.userAi == some "ai"
  let has_booking_url := messages.any msgHasCompletionPhrase
  if has_booking_url then "complete"
  else if ai_engaged then
    match messages.getLast? with
    | some lastMsg =>
        if toUtcNaive lastMsg.dateTime > nowUtc - 12 * 3600 then "in_progress"
        else "incomplete"
    | none => "incomplete"
  else "incomplete"

/-- The status computation of `sync_messenger_session_data` (`routes.py` 482):
`'complete' if has_booking_url else 'in_progress'` — with no recency test. -/
def computeSyncStatus (messages : List ChatMessage) : String :=
  if messages.any msgHasCompletionPhraseSql then "complete" else "in_progress"

/-- `ensure_messenger_session_exists` (`routes.py` 360-455): no-op when the
session row exists; no-op when the session has no messages; otherwise create
the session row from the messages and, when absent, a placeholder lead named
`'Unknown'`. -/
def ensureMessengerSessionExists (db : DB) (sid : String) (nowUtc : Int) : DB :=
  match db.messenger_sessions.find? (fun s => s.session_id == sid) with
  | some _ => db
  | none =>
      let messages := db.chat_messages.filter fun m => m.session_id == sid
      match messages with
      | [] => db
      | first_msg :: _ =>
          let conversation_start := toUtcNaive first_msg.dateTime
          let last_message_time := toUtcNaive (messages.getLastD first_msg).dateTime
          let newSession : MessengerSession :=
            { id := db.next_session_pk
              session_id := sid
              conversation_start := conversation_start
              last_message_time := last_message_time
              message_count := messages.length
              status := "active"
              completion_status := computeEnsureStatus messages nowUtc
              ai_engaged := messages.any fun m => m.userAi == some "ai"
              qa_status := "unchecked" }
          let leads' :=
            if (db.leads.find? fun l => l.session_id == sid).isSome then db.leads
            else db.leads ++ [{ session_id := sid, full_name := some "Unknown" }]
          { db with
            messenger_sessions := db.messenger_sessions ++ [newSession]
            leads := leads'
            next_session_pk := db.next_session_pk + 1 }

/-- `order_by(dateTime.desc()).first()`: a stored message with maximal
timestamp (the earliest such in table order). -/
def latestMessage? : List ChatMessage → Option ChatMessage
  | [] => none
  | m :: l =>
      match latestMessage? l with
      | none => some m
      | some m' =>
          if toUtcNaive m'.dateTime > toUtcNaive m.dateTime then some m' else some m

/-- `sync_messenger_session_data` (`routes.py` 458-506): create the session
row if missing; otherwise recompute `message_count`, `last_message_time`
(normalised to UTC-naive) and `completion_status` from the stored messages. -/
def syncMessengerSessionData (db : DB) (sid : String) (nowUtc : Int) : DB :=
  match db.messenger_sessions.find? (fun s => s.session_id == sid) with
  | none => ensureMessengerSessionExists db sid nowUtc
  | some _ =>
      let messages := db.chat_messages.filter fun m => m.session_id == sid
      let message_count := messages.length
      let last_message := latestMessage? messages
      let completion_status := computeSyncStatus messages
      { db with
        messenger_sessions := db.messenger_sessions.map fun s =>
          if s.session_id == sid then
            { s with
              message_count := message_count
              last_message_time :=
                match last_message with
                | some m => toUtcNaive m.dateTime
                | none => s.last_message_time
              completion_status := completion_status }
          else s }

/-! ### `delete_testing_session` (`routes.py` 1388-1506) -/

/-- `lead_name = lead.full_name if lead and lead.full_name else 'Unknown'`. -/
def leadDisplayName (lead? : Option Lead) : String :=
  match lead? with
  | some l =>
      match l.full_name with
      | some n => if n == "" then "Unknown" else n
      | none => "Unknown"
  | none => "Unknown"

/-- The `is_testing_session` predicate (`routes.py` 1413-1425). -/
def isTestingSession (ms : MessengerSession) (lead_name : String) : Bool :=
  lead_name == "Testing Session" ||
  lead_name == "Unknown" ||
  lead_name == "Web Chat User" ||
  lead_name == "" ||
  pyIn "test" (pyLower ms.session_id) ||
  pyIn "realtime" (pyLower ms.session_id) ||
  pyIn "verification" (pyLower ms.session_id) ||
  ms.session_source == "web_chat" ||
  "test_".isPrefixOf ms.session_id ||
  "session_".isPrefixOf ms.session_id

/-- `delete_testing_session` (`routes.py` 1388-1506), returning the HTTP
status and the committed database state.  Every mutation sits in one
transaction closed by a single `commit`, so the state either changes in full
(200) or not at all (404/403/500). -/
def deleteTestingSession (db : DB) (dbId : Nat) : Nat × DB :=
  match db.messenger_sessions.find? (fun s => s.id == dbId) with
  | none => (404, db)
  | some ms =>
      let sid := ms.session_id
      let lead? := db.leads.find? fun l => l.session_id == sid
      if !(isTestingSession ms (leadDisplayName lead?)) then (403, db)
      else
        let msgs' := db.chat_messages.filter fun m => !(m.session_id == sid)
        let leads' :=
          match lead? with
          | some _ => db.leads.eraseP fun l => l.session_id == sid
          | none => db.leads
        let sessions' := db.messenger_sessions.filter fun s => !(s.id == ms.id)
        let remaining := (msgs'.filter fun m => m.session_id == sid).length
        if remaining > 0 then (500, db)
        else
          let db' := { db with
            chat_messages := msgs'
            messenger_sessions := sessions'
            leads := leads' }
          -- post-commit verification (lines 1472-1484); the rollback there
          -- follows the commit and cannot undo it
          if (db'.messenger_sessions.find? fun s => s.id == dbId).isSome ||
             (db'.chat_messages.filter fun m => m.session_id == sid).length > 0 then
            (500, db')
          else (200, db')

/-! ### `update_messenger_session_qa` (`routes.py` 1634-1826) -/

/-- The request body fields the QA update reads. -/
structure QaUpdateData where
  qa_status : Option String := none
  qa_notes : Option String := none
  qa_reviewer : Option String := none
  dev_feedback : Option String := none
  mark_fixed : Bool := false
deriving DecidableEq, Repr

/-- `update_messenger_session_qa`, success path after the session was found
(`routes.py` 1660-1826).  Returns the HTTP status, the committed session row
and whether the QA-issue notification email was attempted.  The 403 branches
return before `commit`, so they leave the row unchanged and send nothing.
The email is attempted whenever the row's `qa_status` after the update is
`"issue"` — the previous status is never consulted. -/
def updateMessengerSessionQa (s : MessengerSession) (d : QaUpdateData)
    (username : String) (role : String) (nowSydney : Int) :
    Nat × MessengerSession × Bool :=
  let s1 :=
    match d.qa_status with
    | some v => { s with qa_status := v, qa_status_updated_by := some username,
                         qa_status_updated_at := some nowSydney }
    | none => s
  let s2 :=
    match d.qa_notes with
    | some v => { s1 with qa_notes := some v, qa_notes_updated_at := some nowSydney }
    | none => s1
  let s3 :=
    match d.qa_reviewer with
    | some v => { s2 with qa_status_updated_by := some v }
    | none => s2
  let afterDev : Option MessengerSession :=
    match d.dev_feedback with
    | some v =>
        if role == "qa_dev" || role == "admin" then
          some { s3 with dev_feedback := some v, dev_feedback_by := some username,
                         dev_feedback_at := some nowSydney }
        else none
    | none => some s3
  match afterDev with
  | none => (403, s, false)
  | some s4 =>
      let afterFixed : Option MessengerSession :=
        if d.mark_fixed then
          if role == "qa_dev" || role == "admin" then
            some { s4 with qa_status := "fixed", qa_status_updated_by := some username,
                           qa_status_updated_at := some nowSydney }
          else none
        else some s4
      match afterFixed with
      | none => (403, s, false)
      | some s5 => (200, s5, s5.qa_status == "issue")

/-! ### `handle_chat_message` and the notification list (`routes.py` 2307-2453) -/

/-- Append a completion notification and trim the list to its last 50
entries (`routes.py` 2390-2394). -/
def pushNotification (l : List Notification) (n : Notification) : List Notification :=
  let l' := l ++ [n]
  if l'.length > 50 then l'.drop (l'.length - 50) else l'

/-- `f"{first_name} {last_name}".strip() if first_name or last_name else
'Web Chat User'`. -/
def chatLeadName (firstName lastName : String) : String :=
  if firstName == "" && lastName == "" then "Web Chat User"
  else (firstName ++ " " ++ lastName).trim

/-- The session row created by `handle_chat_message` for an unseen session id
(`routes.py` 2345-2354). -/
def newChatSessionRow (sid sessionSource userType : String) (nowUtc : Int)
    (pk : Nat) : MessengerSession :=
  { id := pk
    session_id := sid
    conversation_start := nowUtc
    last_message_time := nowUtc
    message_count := 1
    session_source := sessionSource
    ai_engaged := userType == "ai"
    completion_status := "in_progress"
    status := "active" }

/-- The lead row created by `handle_chat_message` for an unseen session id
(`routes.py` 2357-2362). -/
def newChatLeadRow (sid firstName lastName contactId : String) : Lead :=
  { session_id := sid
    full_name := some (chatLeadName firstName lastName)
    email := if pyIn "@" contactId then some contactId else none }

/-- `handle_chat_message` (`routes.py` 2307-2426): store the message; create
the session row plus a lead record when the session id is unseen, or update
the existing row (and on a completion-marking AI message, set the status and
push a notification).  All inserts commit together; a violated unique
constraint aborts the whole transaction (`except` → `rollback` → 500). -/
def handleChatMessage (st : AppState) (sid message userType firstName lastName
    contactId sessionSource : String) (nowUtc : Int) : Nat × AppState :=
  if sid == "" || message == "" then (400, st)
  else
    let newMsg : ChatMessage :=
      { session_id := sid, dateTime := { naiveUtc := nowUtc },
        userAi := some userType, messageStr := some message }
    match st.db.messenger_sessions.find? (fun s => s.session_id == sid) with
    | none =>
        let db' : DB :=
          { st.db with
            chat_messages := st.db.chat_messages ++ [newMsg]
            messenger_sessions := st.db.messenger_sessions ++
              [newChatSessionRow sid sessionSource userType nowUtc st.db.next_session_pk]
            leads := st.db.leads ++ [newChatLeadRow sid firstName lastName contactId]
            next_session_pk := st.db.next_session_pk + 1 }
        if nodupBy (·.session_id) db'.messenger_sessions &&
           nodupBy (·.session_id) db'.leads then
          (200, { st with db := db' })
        else (500, st)
    | some _ =>
        -- the pending message insert is flushed by the count query, then 1 is
        -- added (`count() + 1`)
        let allMsgs := st.db.chat_messages ++ [newMsg]
        let message_count := (allMsgs.filter fun m => m.session_id == sid).length + 1
        let isCompletion := userType == "ai" && !(message == "") &&
          pyIn "within 24 hours" (pyLower message)
        let notifications' :=
          if isCompletion then
            pushNotification st.completion_notifications
              { session_id := sid, timestamp := nowUtc,
                message := "Session completed! Booking URL provided.",
                kind := "completion" }
          else st.completion_notifications
        let leadExists := (st.db.leads.find? fun l => l.session_id == sid).isSome
        let leads0 :=
          if leadExists then st.db.leads else st.db.leads ++ [{ session_id := sid }]
        let updLead := fun (l : Lead) =>
          let l := if !(firstName == "") || !(lastName == "") then
              { l with full_name := some ((firstName ++ " " ++ lastName).trim) }
            else l
          if !(contactId == "") then
            { l with email := if pyIn "@" contactId then some contactId else l.email }
          else l
        let leads' := leads0.map fun l => if l.session_id == sid then updLead l else l
        let sessions' := st.db.messenger_sessions.map fun s =>
          if s.session_id == sid then
            { s with
              last_message_time := nowUtc
              message_count := message_count
              ai_engaged := s.ai_engaged || userType == "ai"
              completion_status :=
                if isCompletion then "complete" else s.completion_status }
          else s
        let db' : DB :=
          { st.db with
            chat_messages := allMsgs
            messenger_sessions := sessions'
            leads := leads' }
        if nodupBy (·.session_id) db'.messenger_sessions &&
           nodupBy (·.session_id) db'.leads then
          (200, { db := db', completion_notifications := notifications' })
        else (500, st)

/-- `get_completion_notifications` (`routes.py` 2429-2453): return the pending
entries and clear the list; an empty list is returned as-is. -/
def getCompletionNotifications (l : List Notification) :
    List Notification × List Notification :=
  if !l.isEmpty then (l, []) else ([], l)

/-! ### Pagination of `get_messenger_sessions` (`routes.py` 1256-1268, 1355-1369) -/

/-- The pagination block of the session-list response envelope. -/
structure PaginationInfo where
  page : Nat
  pages : Nat
  per_page : Nat
  total : Nat
  has_next : Bool
  has_prev : Bool
deriving DecidableEq, Repr

/-- The pagination performed by `get_messenger_sessions`: count the matching
rows, slice with `offset((page - 1) * per_page).limit(per_page)`, and report
`pages = (total + per_page - 1) // per_page` (0 when no rows),
`has_next = page < pages`, `has_prev = page > 1`. -/
def getSessionsPage (rows : List MessengerSession) (page per_page : Nat) :
    List MessengerSession × PaginationInfo :=
  let total := rows.length
  let items := (rows.drop ((page - 1) * per_page)).take per_page
  let total_pages := if total > 0 then (total + per_page - 1) / per_page else 0
  (items,
   { page := page, pages := total_pages, per_page := per_page, total := total,
     has_next := decide (page < total_pages), has_prev := decide (page > 1) })

/-! ## Helper lemmas -/

/-- A key-distinct list maps equal keys to equal elements. -/
lemma nodupBy_inj {α β : Type} [BEq β] [LawfulBEq β] (f : α → β) :
    ∀ (l : List α), nodupBy f l = true →
      ∀ a ∈ l, ∀ b ∈ l, f a = f b → a = b := by
  intro l
  induction l with
  | nil => intro _ a ha; exact absurd ha (List.not_mem_nil a)
  | cons c l ih =>
      intro h a ha b hb hfab
      rw [nodupBy, Bool.and_eq_true] at h
      obtain ⟨hany, hrest⟩ := h
      have hnotin : ∀ x ∈ l, f x ≠ f c := by
        intro x hx hfx
        have : l.any (fun b => f b == f c) = true := by
          rw [List.any_eq_true]; exact ⟨x, hx, by simp [hfx]⟩
        simp [this] at hany
      rcases List.mem_cons.mp ha with rfl | ha' <;>
        rcases List.mem_cons.mp hb with rfl | hb'
      · rfl
      · exact absurd hfab.symm (hnotin b hb')
      · exact absurd hfab (hnotin a ha')
      · exact ih hrest a ha' b hb' hfab

/-- Appending an element with a fresh key keeps the list key-distinct. -/
lemma nodupBy_append_singleton {α β : Type} [BEq β] [LawfulBEq β] (f : α → β) (a : α) :
    ∀ (l : List α), nodupBy f l = true → (∀ x ∈ l, f x ≠ f a) →
      nodupBy f (l ++ [a]) = true := by
  intro l
  induction l with
  | nil => intro _ _; simp [nodupBy]
  | cons c l ih =>
      intro h hfresh
      rw [nodupBy, Bool.and_eq_true] at h
      obtain ⟨hany, hrest⟩ := h
      rw [List.cons_append, nodupBy, Bool.and_eq_true]
      refine ⟨?_, ih hrest fun x hx => hfresh x (List.mem_cons_of_mem c hx)⟩
      rw [Bool.not_eq_true', List.any_eq_false]
      intro x hx
      rcases List.mem_append.mp hx with hx' | hx'
      · rw [Bool.not_eq_true', List.any_eq_false] at hany
        exact hany x hx'
      · have : x = a := by simpa using hx'
        subst this
        simp [Ne.symm (hfresh c (List.mem_cons_self c l))]

/-- Erasing the sole element with key `k` from a key-distinct list leaves no
element with key `k`. -/
lemma filter_eraseP_eq_nil {α β : Type} [BEq β] [LawfulBEq β] (f : α → β) (k : β) :
    ∀ (l : List α), nodupBy f l = true →
      (l.eraseP fun x => f x == k).filter (fun x => f x == k) = [] := by
  intro l
  induction l with
  | nil => intro _; rfl
  | cons a l ih =>
      intro h
      rw [nodupBy, Bool.and_eq_true] at h
      obtain ⟨hany, hrest⟩ := h
      by_cases ha : f a == k
      · rw [List.eraseP_cons_of_pos (p := fun x => f x == k) ha, List.filter_eq_nil_iff]
        intro x hx hfx
        rw [Bool.not_eq_true', List.any_eq_false] at hany
        have hxa := hany x hx
        have hfk : f x = k := by simpa using hfx
        have hfa : f x = f a := by rw [hfk]; exact (eq_of_beq ha).symm
        exact hxa (by simp [hfa])
      · rw [List.eraseP_cons_of_neg (p := fun x => f x == k) (by simpa using ha),
          List.filter_cons_of_neg (by simpa using ha)]
        exact ih hrest

/-- `find?` over a keyed in-place update: the found row is the updated one. -/
lemma find?_key_map_update {α β : Type} [BEq β] [LawfulBEq β] (key : α → β) (k : β)
    (g : α → α) (hg : ∀ x, key (g x) = key x) :
    ∀ (l : List α) (a : α), l.find? (fun x => key x == k) = some a →
      (l.map fun x => if key x == k then g x else x).find?
        (fun x => key x == k) = some (g a) := by
  intro l
  induction l with
  | nil => intro a h; simp [List.find?] at h
  | cons c l ih =>
      intro a h
      by_cases hc : key c == k
      · rw [List.find?_cons_of_pos (p := fun x => key x == k) _ hc] at h
        injection h with h
        subst h
        have hgc : key (g c) == k := by rw [hg]; exact hc
        simp only [List.map_cons, hc, if_true]
        rw [List.find?_cons_of_pos (p := fun x => key x == k) _ hgc]
      · rw [List.find?_cons_of_neg (p := fun x => key x == k) _ hc] at h
        simp only [List.map_cons, hc, Bool.false_eq_true, if_false]
        rw [List.find?_cons_of_neg (p := fun x => key x == k) _ hc]
        exact ih a h

/-- Setting one lead attribute leaves every other attribute unchanged. -/
lemma getF_setF_ne (l : Lead) (g f : LeadField) (v : String) (h : g ≠ f) :
    (l.setF g v).getF f = l.getF f := by
  cases g <;> cases f <;> simp_all [Lead.setF, Lead.getF]

/-- A non-empty, non-placeholder value fails the `should_update` test. -/
lemma shouldUpdateField_eq_false (f : LeadField) (s : String)
    (hne : s ≠ "") (hnu : s ≠ "Unknown")
    (hwc : f = LeadField.full_name → s ≠ "Web Chat User") :
    shouldUpdateField f (some s) = false := by
  cases f <;> simp_all [shouldUpdateField]

/-! ## C1 -/

/-- C1 (as stated) is false: the `upsert_lead` route's update branch
(`routes.py` 262-301) overwrites a provided field unconditionally.  With an
existing `full_name = "Jane Doe"`, submitting `full_name = "John Smith"`
changes the stored name, where the claim requires it to stay `"Jane Doe"`. -/
theorem upsert_lead_overwrites_confirmed_name :
    (upsertLeadUpdate { session_id := "s1", full_name := some "Jane Doe" }
        [("full_name", some "John Smith")]).full_name = some "John Smith" ∧
    (some "John Smith" : Option String) ≠ some "Jane Doe" := by
  decide

/-- C1 (amended): the fill-only merge holds on the AI-extraction path.
`_process_lead_data` (`ai_lead_extractor.py` 142-202) never overwrites a lead
attribute whose current value is non-empty and not a placeholder (`"Unknown"`,
or additionally `"Web Chat User"` for `full_name`), whatever values the
extraction supplies. -/
theorem ai_merge_fill_only_preserves_confirmed_fields
    (l : Lead) (clean : List (String × String)) (f : LeadField) (s : String)
    (hcur : l.getF f = some s) (hne : s ≠ "") (hnu : s ≠ "Unknown")
    (hwc : f = LeadField.full_name → s ≠ "Web Chat User") :
    (updateLeadFields l clean).getF f = some s := by
  induction clean generalizing l with
  | nil => simpa [updateLeadFields] using hcur
  | cons kv rest ih =>
      rw [updateLeadFields, List.foldl_cons]
      have hstep : (leadMergeStep l kv).getF f = some s := by
        cases hpf : parseLeadField kv.1 with
        | none => simp only [leadMergeStep, hpf]; exact hcur
        | some g =>
            simp only [leadMergeStep, hpf]
            by_cases hgf : g = f
            · subst hgf
              have hfalse := shouldUpdateField_eq_false g s hne hnu hwc
              rw [hcur, hfalse, if_neg (by simp)]
              exact hcur
            · by_cases hsu : shouldUpdateField g (l.getF g) = true
              · rw [if_pos hsu, getF_setF_ne l g f kv.2 hgf]
                exact hcur
              · rw [if_neg hsu]
                exact hcur
      exact ih (leadMergeStep l kv) hstep

/-- Witness for C1 (amended): re-extracting `full_name = "John Smith"` over an
existing `"Jane Doe"` leaves the lead's name unchanged. -/
theorem ai_merge_fill_only_witness :
    ({ session_id := "s1", full_name := some "Jane Doe" } : Lead).getF
        LeadField.full_name = some "Jane Doe" ∧
    (updateLeadFields { session_id := "s1", full_name := some "Jane Doe" }
        [("full_name", "John Smith")]).getF LeadField.full_name = some "Jane Doe" :=
  ⟨by decide,
   ai_merge_fill_only_preserves_confirmed_fields
     { session_id := "s1", full_name := some "Jane Doe" }
     [("full_name", "John Smith")] LeadField.full_name "Jane Doe"
     (by decide) (by decide) (by decide) (fun _ => by decide)⟩

/-! ## C2 -/

/-- The completion label exactly as the specification words it: `complete` if
any message contains the phrase; else `in_progress` if the AI has sent at
least one message and the last message is within 12 hours of now; else
`incomplete`.  (Spec-side definition, for comparison with the code.) -/
def claimedCompletionStatus (messages : List ChatMessage) (nowUtc : Int) : String :=
  if messages.any msgHasCompletionPhrase then "complete"
  else if (messages.any fun m => m.userAi == some "ai") &&
          (match messages.getLast? with
           | some m => decide (toUtcNaive m.dateTime > nowUtc - 12 * 3600)
           | none => false) then "in_progress"
  else "incomplete"

/-- A concrete database: one session whose single message is from the AI,
contains no completion phrase, and is 20 hours old at `nowUtc = 72000`. -/
def staleAiDb : DB :=
  { chat_messages := [{ session_id := "s1", dateTime := { naiveUtc := 0 },
                        userAi := some "ai", messageStr := some "hello" }]
    messenger_sessions := [{ id := 1, session_id := "s1",
                             conversation_start := 0, last_message_time := 0,
                             ai_engaged := true }]
    leads := []
    next_session_pk := 2 }

/-- C2 (as stated) is false on the re-sync path: with no completion phrase and
an AI message 20 hours old, `sync_messenger_session_data` (`routes.py`
477-496) stores `"in_progress"`, while the claimed heuristic (which the
session-creation path does follow) yields `"incomplete"`. -/
theorem sync_labels_stale_ai_session_in_progress :
    ((syncMessengerSessionData staleAiDb "s1" 72000).messenger_sessions.map
        (·.completion_status)) = ["in_progress"] ∧
    claimedCompletionStatus staleAiDb.chat_messages 72000 = "incomplete" ∧
    "in_progress" ≠ "incomplete" := by
  decide

/-- C2 (amended): the three-way heuristic of the claim is exactly what the
session-creation path computes (`ensure_messenger_session_exists`, `routes.py`
395-417); the re-sync of an existing session row instead stores `complete`
when the phrase occurs and `in_progress` otherwise, regardless of message
age or AI engagement. -/
theorem completion_status_heuristic_creation_vs_sync :
    (∀ (messages : List ChatMessage) (nowUtc : Int),
        computeEnsureStatus messages nowUtc = claimedCompletionStatus messages nowUtc) ∧
    (∀ (db : DB) (sid : String) (nowUtc : Int) (s : MessengerSession),
        db.messenger_sessions.find? (fun t => t.session_id == sid) = some s →
        ∃ s', (syncMessengerSessionData db sid nowUtc).messenger_sessions.find?
                (fun t => t.session_id == sid) = some s' ∧
          s'.completion_status =
            (if (db.chat_messages.filter fun m => m.session_id == sid).any
                  msgHasCompletionPhraseSql
             then "complete" else "in_progress")) := by
  constructor
  · intro messages nowUtc
    rw [computeEnsureStatus, claimedCompletionStatus]
    by_cases hb : messages.any msgHasCompletionPhrase = true
    · simp [hb]
    · simp only [hb, Bool.false_eq_true, if_false]
      by_cases hai : (messages.any fun m => m.userAi == some "ai") = true
      · simp only [hai, Bool.true_and, if_true]
        cases hl : messages.getLast? with
        | none => simp
        | some m =>
            by_cases ht : toUtcNaive m.dateTime > nowUtc - 12 * 3600 <;> simp [ht]
      · simp [hai]
  · intro db sid nowUtc s hfind
    let g : MessengerSession → MessengerSession := fun t =>
      { t with
        message_count := (db.chat_messages.filter fun m => m.session_id == sid).length
        last_message_time :=
          match latestMessage? (db.chat_messages.filter fun m => m.session_id == sid) with
          | some m => toUtcNaive m.dateTime
          | none => t.last_message_time
        completion_status :=
          computeSyncStatus (db.chat_messages.filter fun m => m.session_id == sid) }
    have hupd := find?_key_map_update (fun t : MessengerSession => t.session_id) sid
      g (fun _ => rfl) db.messenger_sessions s hfind
    refine ⟨g s, ?_, rfl⟩
    simp only [syncMessengerSessionData, hfind]
    exact hupd

/-- Witness for C2 (amended): at session creation the stale 20-hour-old AI
session is labelled `incomplete`; on re-sync the same stored session is
relabelled `in_progress`. -/
theorem completion_status_heuristic_witness :
    computeEnsureStatus staleAiDb.chat_messages 72000 = "incomplete" ∧
    ∃ s', (syncMessengerSessionData staleAiDb "s1" 72000).messenger_sessions.find?
            (fun t => t.session_id == "s1") = some s' ∧
      s'.completion_status =
        (if (staleAiDb.chat_messages.filter fun m => m.session_id == "s1").any
              msgHasCompletionPhraseSql
         then "complete" else "in_progress") := by
  constructor
  · rw [completion_status_heuristic_creation_vs_sync.1 staleAiDb.chat_messages 72000]
    decide
  · exact completion_status_heuristic_creation_vs_sync.2 staleAiDb "s1" 72000
      { id := 1, session_id := "s1", conversation_start := 0,
        last_message_time := 0, ai_engaged := true } (by decide)

/-! ## C3 -/

/-- C3: a delete request on a non-testing session returns 403 and changes
nothing; on a testing session it succeeds with 200 and afterwards no chat
message, no lead and no session row remains for that session id.  The handler
commits exactly once, so every failure path leaves the state untouched — no
partial deletion can persist. -/
theorem delete_testing_session_spec (db : DB) (dbId : Nat) (hwf : db.wf)
    (ms : MessengerSession)
    (hfind : db.messenger_sessions.find? (fun s => s.id == dbId) = some ms) :
    (isTestingSession ms
        (leadDisplayName (db.leads.find? fun l => l.session_id == ms.session_id)) = false →
      deleteTestingSession db dbId = (403, db)) ∧
    (isTestingSession ms
        (leadDisplayName (db.leads.find? fun l => l.session_id == ms.session_id)) = true →
      (deleteTestingSession db dbId).1 = 200 ∧
      ((deleteTestingSession db dbId).2.chat_messages.filter
        fun m => m.session_id == ms.session_id) = [] ∧
      ((deleteTestingSession db dbId).2.leads.filter
        fun l => l.session_id == ms.session_id) = [] ∧
      ((deleteTestingSession db dbId).2.messenger_sessions.filter
        fun s => s.session_id == ms.session_id) = []) := by
  obtain ⟨hwfId, hwfSid, hwfLead⟩ := hwf
  have hmem : ms ∈ db.messenger_sessions := List.mem_of_find?_eq_some hfind
  have hmsid : ms.id = dbId := by
    have := List.find?_some hfind
    simpa using this
  -- messages: a filter of the complement is empty
  have hmsgs : ((db.chat_messages.filter fun m => !(m.session_id == ms.session_id)).filter
      fun m => m.session_id == ms.session_id) = [] := by
    rw [List.filter_filter, List.filter_eq_nil_iff]
    intro a _
    by_cases h : a.session_id == ms.session_id <;> simp [h]
  -- leads: erasing the unique match leaves no match
  have hleadsErase : ((db.leads.eraseP fun l => l.session_id == ms.session_id).filter
      fun l => l.session_id == ms.session_id) = [] :=
    filter_eraseP_eq_nil (·.session_id) ms.session_id db.leads hwfLead
  -- sessions: removing the row with this primary key removes every row with
  -- this (unique) session id
  have hsess : ((db.messenger_sessions.filter fun s => !(s.id == ms.id)).filter
      fun s => s.session_id == ms.session_id) = [] := by
    rw [List.filter_eq_nil_iff]
    intro a ha haid
    have ha' := List.mem_filter.mp ha
    have haeq : a = ms := nodupBy_inj (·.session_id) db.messenger_sessions hwfSid
      a ha'.1 ms hmem (by simpa using haid)
    subst haeq
    simp at ha'
  constructor
  · intro hneg
    simp only [deleteTestingSession, hfind, hneg, Bool.not_false, if_pos]
  · intro hpos
    have hver : (((db.messenger_sessions.filter fun s => !(s.id == ms.id)).find?
        fun s => s.id == dbId)) = none := by
      rw [List.find?_eq_none]
      intro x hx
      have hx' := List.mem_filter.mp hx
      intro hxid
      rw [hmsid] at hx'
      simp [hxid] at hx'
    cases hl : db.leads.find? (fun l => l.session_id == ms.session_id) with
    | some l0 =>
        rw [hl] at hpos
        simp only [deleteTestingSession]
        rw [hfind]
        simp [hl, hpos, hmsgs, hver, hleadsErase, hsess]
    | none =>
        have hleadsNone : (db.leads.filter fun l => l.session_id == ms.session_id) = [] := by
          rw [List.filter_eq_nil_iff]
          intro a ha
          exact List.find?_eq_none.mp hl a ha
        rw [hl] at hpos
        simp only [deleteTestingSession]
        rw [hfind]
        simp [hl, hpos, hmsgs, hver, hleadsNone, hsess]

/-- A concrete database with one testing session (`"test_1"`), one chat
message and one lead. -/
def c3db : DB :=
  { chat_messages := [{ session_id := "test_1", dateTime := { naiveUtc := 0 },
                        userAi := some "user", messageStr := some "hi" }]
    messenger_sessions := [{ id := 1, session_id := "test_1",
                             conversation_start := 0, last_message_time := 0 }]
    leads := [{ session_id := "test_1", full_name := some "Tester" }]
    next_session_pk := 2 }

/-- Witness for C3: deleting the concrete testing session returns 200 and
leaves zero message, lead and session rows for its session id. -/
theorem delete_testing_session_spec_witness :
    c3db.wf ∧
    ((deleteTestingSession c3db 1).1 = 200 ∧
     ((deleteTestingSession c3db 1).2.chat_messages.filter
       fun m => m.session_id == "test_1") = [] ∧
     ((deleteTestingSession c3db 1).2.leads.filter
       fun l => l.session_id == "test_1") = [] ∧
     ((deleteTestingSession c3db 1).2.messenger_sessions.filter
       fun s => s.session_id == "test_1") = []) :=
  ⟨by decide,
   (delete_testing_session_spec c3db 1 (by decide)
     { id := 1, session_id := "test_1", conversation_start := 0,
       last_message_time := 0 } (by decide)).2 (by decide)⟩

/-! ## C4 -/

/-- C4 (as stated) is false: `update_messenger_session_qa` (`routes.py`
1660-1826) triggers the notification email whenever the committed `qa_status`
is `"issue"`, without consulting the previous status.  Re-setting `"issue"`
on a session already in `"issue"` attempts another notification, where the
claim requires none. -/
theorem qa_issue_email_not_idempotent :
    (updateMessengerSessionQa
      { id := 1, session_id := "s1", conversation_start := 0,
        last_message_time := 0, qa_status := "issue" }
      { qa_status := some "issue" } "alice" "admin" 100).2.2 = true := by
  decide

/-- C4 (amended): the notification is attempted exactly when the update
commits (status 200) and the resulting `qa_status` is `"issue"` — once per
such update, regardless of the previous status, including updates that do not
change `qa_status` at all. -/
theorem qa_issue_email_iff_final_status_issue
    (s : MessengerSession) (d : QaUpdateData) (username role : String)
    (nowSydney : Int) :
    (updateMessengerSessionQa s d username role nowSydney).2.2 =
      (decide ((updateMessengerSessionQa s d username role nowSydney).1 = 200) &&
       ((updateMessengerSessionQa s d username role nowSydney).2.1.qa_status == "issue")) := by
  rw [updateMessengerSessionQa]
  cases d.dev_feedback with
  | some v =>
      by_cases hr : (role == "qa_dev" || role == "admin") = true
      · simp only [hr, if_true]
        by_cases hm : d.mark_fixed <;> simp [hm, hr]
      · simp [hr]
  | none =>
      by_cases hm : d.mark_fixed
      · by_cases hr : (role == "qa_dev" || role == "admin") = true <;> simp [hm, hr]
      · simp [hm]

/-! ## C5 -/

/-- An application state holding an orphan lead for `"s1"` (creatable through
the `upsert_lead` route, which never creates a session row) and no session. -/
def orphanLeadState : AppState :=
  { db := { leads := [{ session_id := "s1", full_name := some "Orphan" }] } }

/-- C5 (as stated) is false: posting a chat message for the unseen session id
`"s1"` while an orphan lead for `"s1"` already exists makes the unguarded
lead insert of `handle_chat_message` (`routes.py` 2356-2362) violate the
unique constraint on `leads.session_id`; the transaction rolls back (500) and
zero new session records are created — not exactly one. -/
theorem handle_chat_message_orphan_lead_creates_nothing :
    handleChatMessage orphanLeadState "s1" "hello" "user" "" "" "" "web_chat" 0 =
      (500, orphanLeadState) ∧
    (handleChatMessage orphanLeadState "s1" "hello" "user" "" "" "" "web_chat"
      0).2.db.messenger_sessions.length = 0 := by
  decide

/-- C5 (amended): posting a chat message for a session id with neither an
existing session record nor an existing lead record creates exactly one new
session row and exactly one new lead row for that id. -/
theorem handle_chat_message_creates_one_session_and_lead
    (st : AppState) (sid message userType firstName lastName contactId
      sessionSource : String) (nowUtc : Int)
    (hwf : st.db.wf) (hsid : sid ≠ "") (hmsg : message ≠ "")
    (hnosess : ∀ s ∈ st.db.messenger_sessions, s.session_id ≠ sid)
    (hnolead : ∀ l ∈ st.db.leads, l.session_id ≠ sid) :
    (handleChatMessage st sid message userType firstName lastName contactId
        sessionSource nowUtc).1 = 200 ∧
    ((handleChatMessage st sid message userType firstName lastName contactId
        sessionSource nowUtc).2.db.messenger_sessions.filter
      fun s => s.session_id == sid).length = 1 ∧
    ((handleChatMessage st sid message userType firstName lastName contactId
        sessionSource nowUtc).2.db.leads.filter
      fun l => l.session_id == sid).length = 1 ∧
    (handleChatMessage st sid message userType firstName lastName contactId
        sessionSource nowUtc).2.db.messenger_sessions.length =
      st.db.messenger_sessions.length + 1 ∧
    (handleChatMessage st sid message userType firstName lastName contactId
        sessionSource nowUtc).2.db.leads.length = st.db.leads.length + 1 := by
  obtain ⟨hwfId, hwfSid, hwfLead⟩ := hwf
  have h400 : (sid == "" || message == "") = false := by
    simp [hsid, hmsg]
  have hfind : st.db.messenger_sessions.find? (fun s => s.session_id == sid) = none := by
    rw [List.find?_eq_none]
    intro x hx
    simp [hnosess x hx]
  have hSessFilter : (st.db.messenger_sessions.filter fun s => s.session_id == sid) = [] := by
    rw [List.filter_eq_nil_iff]
    intro a ha
    simp [hnosess a ha]
  have hLeadFilter : (st.db.leads.filter fun l => l.session_id == sid) = [] := by
    rw [List.filter_eq_nil_iff]
    intro a ha
    simp [hnolead a ha]
  have hnodupS := nodupBy_append_singleton (fun t : MessengerSession => t.session_id)
    (newChatSessionRow sid sessionSource userType nowUtc st.db.next_session_pk)
    st.db.messenger_sessions hwfSid
    (fun x hx => by simpa [newChatSessionRow] using hnosess x hx)
  have hnodupL := nodupBy_append_singleton (fun t : Lead => t.session_id)
    (newChatLeadRow sid firstName lastName contactId)
    st.db.leads hwfLead
    (fun x hx => by simpa [newChatLeadRow] using hnolead x hx)
  simp only [handleChatMessage, h400, Bool.false_eq_true, if_false, hfind]
  rw [hnodupS, hnodupL]
  simp [List.filter_append, hSessFilter, hLeadFilter, newChatSessionRow, newChatLeadRow]

/-- Witness for C5 (amended): from an empty state, one chat message creates
exactly one session row and one lead row for its session id. -/
theorem handle_chat_message_creates_one_witness :
    ({} : AppState).db.wf ∧
    ((handleChatMessage {} "s1" "hello" "user" "Jane" "Doe" "" "web_chat" 0).1 = 200 ∧
     ((handleChatMessage {} "s1" "hello" "user" "Jane" "Doe" "" "web_chat"
        0).2.db.messenger_sessions.filter fun s => s.session_id == "s1").length = 1 ∧
     ((handleChatMessage {} "s1" "hello" "user" "Jane" "Doe" "" "web_chat"
        0).2.db.leads.filter fun l => l.session_id == "s1").length = 1 ∧
     (handleChatMessage {} "s1" "hello" "user" "Jane" "Doe" "" "web_chat"
        0).2.db.messenger_sessions.length = ({} : AppState).db.messenger_sessions.length + 1 ∧
     (handleChatMessage {} "s1" "hello" "user" "Jane" "Doe" "" "web_chat"
        0).2.db.leads.length = ({} : AppState).db.leads.length + 1) :=
  ⟨by decide,
   handle_chat_message_creates_one_session_and_lead {} "s1" "hello" "user"
     "Jane" "Doe" "" "web_chat" 0 (by decide) (by decide) (by decide)
     (by intro s hs; exact absurd hs (List.not_mem_nil s))
     (by intro l hl; exact absurd hl (List.not_mem_nil l))⟩

/-! ## C6 -/

/-- C6: pagination of the session list.  At most `per_page` items are
returned; `pages` is the ceiling of `total / per_page` (characterised by
`total ≤ pages * per_page < total + per_page`); `has_next` is `page < pages`
and `has_prev` is `page > 1`.  (`per_page ≥ 1` is enforced by the query
schema's `validate.Range(min=1, max=100)`.) -/
theorem get_messenger_sessions_pagination_spec
    (rows : List MessengerSession) (page per_page : Nat) (hpp : 1 ≤ per_page) :
    (getSessionsPage rows page per_page).1.length ≤ per_page ∧
    rows.length ≤ (getSessionsPage rows page per_page).2.pages * per_page ∧
    (getSessionsPage rows page per_page).2.pages * per_page < rows.length + per_page ∧
    (getSessionsPage rows page per_page).2.has_next =
      decide ((getSessionsPage rows page per_page).2.page <
        (getSessionsPage rows page per_page).2.pages) ∧
    (getSessionsPage rows page per_page).2.has_prev =
      decide (1 < (getSessionsPage rows page per_page).2.page) ∧
    (getSessionsPage rows page per_page).2.page = page ∧
    (getSessionsPage rows page per_page).2.per_page = per_page ∧
    (getSessionsPage rows page per_page).2.total = rows.length := by
  refine ⟨?_, ?_, ?_, rfl, rfl, rfl, rfl, rfl⟩
  · simp only [getSessionsPage, List.length_take]
    exact Nat.min_le_left _ _
  · show rows.length ≤ (if rows.length > 0
        then (rows.length + per_page - 1) / per_page else 0) * per_page
    rcases Nat.eq_zero_or_pos rows.length with hz | hposn
    · simp [hz]
    · rw [if_pos hposn]
      have hdm := Nat.div_add_mod (rows.length + per_page - 1) per_page
      have hmlt : (rows.length + per_page - 1) % per_page < per_page :=
        Nat.mod_lt _ hpp
      rw [Nat.mul_comm]
      generalize hgen : per_page * ((rows.length + per_page - 1) / per_page) = m at hdm
      omega
  · show (if rows.length > 0
        then (rows.length + per_page - 1) / per_page else 0) * per_page <
        rows.length + per_page
    rcases Nat.eq_zero_or_pos rows.length with hz | hposn
    · simp [hz]; omega
    · rw [if_pos hposn]
      have hdm := Nat.div_add_mod (rows.length + per_page - 1) per_page
      have hmlt : (rows.length + per_page - 1) % per_page < per_page :=
        Nat.mod_lt _ hpp
      rw [Nat.mul_comm]
      generalize hgen : per_page * ((rows.length + per_page - 1) / per_page) = m at hdm
      omega

/-- 25 distinct session rows, for the concrete pagination example. -/
def paginationRows : List MessengerSession :=
  (List.range 25).map fun i =>
    { id := i + 1, session_id := "s" ++ toString i,
      conversation_start := 0, last_message_time := 0 }

/-- Witness for C6: `page=2, per_page=10` over 25 rows returns exactly 10
items with `pages=3`, `has_next=true`, `has_prev=true`. -/
theorem get_messenger_sessions_pagination_witness :
    (1 ≤ 10 ∧
     ((getSessionsPage paginationRows 2 10).1.length ≤ 10 ∧
      paginationRows.length ≤ (getSessionsPage paginationRows 2 10).2.pages * 10 ∧
      (getSessionsPage paginationRows 2 10).2.pages * 10 < paginationRows.length + 10 ∧
      (getSessionsPage paginationRows 2 10).2.has_next =
        decide ((getSessionsPage paginationRows 2 10).2.page <
          (getSessionsPage paginationRows 2 10).2.pages) ∧
      (getSessionsPage paginationRows 2 10).2.has_prev =
        decide (1 < (getSessionsPage paginationRows 2 10).2.page) ∧
      (getSessionsPage paginationRows 2 10).2.page = 2 ∧
      (getSessionsPage paginationRows 2 10).2.per_page = 10 ∧
      (getSessionsPage paginationRows 2 10).2.total = paginationRows.length)) ∧
    ((getSessionsPage paginationRows 2 10).1.length = 10 ∧
     (getSessionsPage paginationRows 2 10).2.pages = 3 ∧
     (getSessionsPage paginationRows 2 10).2.has_next = true ∧
     (getSessionsPage paginationRows 2 10).2.has_prev = true) :=
  ⟨⟨by decide, get_messenger_sessions_pagination_spec paginationRows 2 10 (by decide)⟩,
   by decide⟩

/-! ## C7 -/

/-- C7: when the external chat-completion call fails, or its response body is
not parseable JSON, the extraction pipeline swallows the failure: the caller
of `process_session_for_lead_extraction` receives `False` (the inner
`extract_lead_information` returns `None`), the lead table is unchanged, and
no retry happens — the single call outcome is consumed once and never
re-issued. -/
theorem lead_extraction_failure_returns_false
    (db : DB) (sid : String) (callResult : Except String String)
    (parseJson : String → Option (List (String × Option String)))
    (hfail : (∃ e, callResult = .error e) ∨
             (∃ body, callResult = .ok body ∧ parseJson body = none)) :
    extractLeadInformation db sid callResult parseJson = (none, db) ∧
    processSessionForLeadExtraction db sid callResult parseJson = (false, db) := by
  have hanal : analyzeConversationWithAi callResult parseJson = none := by
    rcases hfail with ⟨e, rfl⟩ | ⟨body, rfl, hp⟩
    · rfl
    · simp [analyzeConversationWithAi, hp]
  have hextract : extractLeadInformation db sid callResult parseJson = (none, db) := by
    rw [extractLeadInformation, hanal]
    by_cases hempty : (db.chat_messages.filter fun m => m.session_id == sid).isEmpty <;>
      simp [hempty]
  exact ⟨hextract, by rw [processSessionForLeadExtraction, hextract]⟩

/-- Witness for C7: a failing external call on a concrete database returns
`False` and leaves the database unchanged. -/
theorem lead_extraction_failure_witness :
    ((∃ e, (Except.error "timeout" : Except String String) = .error e) ∨
     (∃ body, (Except.error "timeout" : Except String String) = .ok body ∧
        (fun _ : String => (none : Option (List (String × Option String)))) body = none)) ∧
    (extractLeadInformation
        { leads := [{ session_id := "s1", full_name := some "Jane Doe" }] } "s1"
        (.error "timeout") (fun _ => none) =
      (none, { leads := [{ session_id := "s1", full_name := some "Jane Doe" }] }) ∧
     processSessionForLeadExtraction
        { leads := [{ session_id := "s1", full_name := some "Jane Doe" }] } "s1"
        (.error "timeout") (fun _ => none) =
      (false, { leads := [{ session_id := "s1", full_name := some "Jane Doe" }] })) :=
  ⟨Or.inl ⟨"timeout", rfl⟩,
   lead_extraction_failure_returns_false
     { leads := [{ session_id := "s1", full_name := some "Jane Doe" }] } "s1"
     (.error "timeout") (fun _ => none) (Or.inl ⟨"timeout", rfl⟩)⟩

/-! ## C8 -/

/-- C8: a GET of the completion-notifications endpoint returns every pending
notification and clears the in-memory list, so a second GET with no
interleaving chat message returns the empty list. -/
theorem completion_notifications_drained_by_get (l : List Notification) :
    (getCompletionNotifications l).1 = l ∧
    getCompletionNotifications (getCompletionNotifications l).2 = ([], []) := by
  cases l with
  | nil => exact ⟨rfl, rfl⟩
  | cons n rest => exact ⟨rfl, rfl⟩

/-! ## C9 -/

/-- The trimmed notification list never exceeds 50 entries. -/
lemma pushNotification_length_le (l : List Notification) (n : Notification) :
    (pushNotification l n).length ≤ 50 := by
  simp only [pushNotification]
  by_cases h : (l ++ [n]).length > 50
  · rw [if_pos h, List.length_drop]
    omega
  · rw [if_neg h]
    simp only [List.length_append, List.length_cons, List.length_nil] at h ⊢
    omega

/-- The trimmed notification list is the most recent entries of the appended
list: dropping all but the last 50 (a no-op when at most 50 remain). -/
lemma pushNotification_eq_drop (l : List Notification) (n : Notification) :
    pushNotification l n = (l ++ [n]).drop ((l ++ [n]).length - 50) := by
  simp only [pushNotification]
  by_cases h : (l ++ [n]).length > 50
  · rw [if_pos h]
  · rw [if_neg h]
    have h0 : (l ++ [n]).length - 50 = 0 := by omega
    rw [h0, List.drop_zero]

/-- C9: the in-memory completion-notification list is capped at 50.  The
append performed for a completion-marking chat message keeps only the most
recent 50 entries, and `handle_chat_message` therefore preserves the bound
`length ≤ 50` on every path. -/
theorem completion_notifications_capped_at_50 :
    (∀ (l : List Notification) (n : Notification),
        (pushNotification l n).length ≤ 50 ∧
        pushNotification l n = (l ++ [n]).drop ((l ++ [n]).length - 50)) ∧
    (∀ (st : AppState) (sid message userType firstName lastName contactId
          sessionSource : String) (nowUtc : Int),
        st.completion_notifications.length ≤ 50 →
        ((handleChatMessage st sid message userType firstName lastName
            contactId sessionSource nowUtc).2).completion_notifications.length ≤ 50) := by
  refine ⟨fun l n => ⟨pushNotification_length_le l n, pushNotification_eq_drop l n⟩, ?_⟩
  intro st sid message userType firstName lastName contactId sessionSource nowUtc h
  simp only [handleChatMessage]
  split
  · exact h
  · split
    · split_ifs <;> exact h
    · split_ifs <;> first | exact h | exact pushNotification_length_le _ _

/-- Witness for C9: handling a completion-marking AI chat message from a
state with an empty notification list keeps the list within the 50-entry
bound. -/
theorem completion_notifications_capped_witness :
    (([] : List Notification).length ≤ 50) ∧
    ((handleChatMessage
        { db := { messenger_sessions :=
            [{ id := 1, session_id := "s1", conversation_start := 0, last_message_time := 0 }] } }
        "s1" "Our team will reach out within 24 hours" "ai" "" "" "" "web_chat"
        0).2).completion_notifications.length ≤ 50 :=
  ⟨by decide,
   completion_notifications_capped_at_50.2
     { db := { messenger_sessions :=
         [{ id := 1, session_id := "s1", conversation_start := 0, last_message_time := 0 }] } }
     "s1" "Our team will reach out within 24 hours" "ai" "" "" "" "web_chat"
     0 (by decide)⟩

/-! ## C10 -/

/-- `latestMessage?` returns `none` only on the empty table. -/
lemma latestMessage?_eq_none_iff :
    ∀ l : List ChatMessage, latestMessage? l = none ↔ l = [] := by
  intro l
  cases l with
  | nil => simp [latestMessage?]
  | cons m rest =>
      simp only [latestMessage?]
      cases latestMessage? rest with
      | none => simp
      | some m' =>
          by_cases h : toUtcNaive m'.dateTime > toUtcNaive m.dateTime <;> simp [h]

/-- The row `latestMessage?` picks is one of the stored rows. -/
lemma latestMessage?_mem :
    ∀ (l : List ChatMessage) (lm : ChatMessage), latestMessage? l = some lm → lm ∈ l := by
  intro l
  induction l with
  | nil => intro lm h; simp [latestMessage?] at h
  | cons m rest ih =>
      intro lm h
      simp only [latestMessage?] at h
      split at h
      · injection h with h
        subst h
        exact List.mem_cons_self _ _
      · next m' heq =>
          split at h
          · injection h with h
            subst h
            exact List.mem_cons_of_mem _ (ih _ heq)
          · injection h with h
            subst h
            exact List.mem_cons_self _ _

/-- The row `latestMessage?` picks carries the maximal timestamp. -/
lemma latestMessage?_max :
    ∀ (l : List ChatMessage) (lm : ChatMessage), latestMessage? l = some lm →
      ∀ m ∈ l, toUtcNaive m.dateTime ≤ toUtcNaive lm.dateTime := by
  intro l
  induction l with
  | nil => intro lm h; simp [latestMessage?] at h
  | cons m rest ih =>
      intro lm h x hx
      simp only [latestMessage?] at h
      split at h
      · next heq =>
          injection h with h
          subst h
          have hnil : rest = [] := (latestMessage?_eq_none_iff rest).mp heq
          subst hnil
          simp at hx
          subst hx
          exact le_refl _
      · next m' heq =>
          split at h
          · next hgt =>
              injection h with h
              subst h
              rcases List.mem_cons.mp hx with rfl | hx'
              · exact le_of_lt hgt
              · exact ih _ heq x hx'
          · next hgt =>
              injection h with h
              subst h
              rcases List.mem_cons.mp hx with rfl | hx'
              · exact le_refl _
              · have hle := ih _ heq x hx'
                omega

/-- C10: after a successful `sync_messenger_session_data` on an existing
session row, the stored `message_count` equals the number of chat-message
rows for the session id, and `last_message_time` equals the (UTC-naive
normalised) timestamp of the most recent stored chat message — a row of the
table whose timestamp dominates every stored message. -/
theorem sync_recomputes_count_and_last_time
    (db : DB) (sid : String) (nowUtc : Int) (s : MessengerSession)
    (hfind : db.messenger_sessions.find? (fun t => t.session_id == sid) = some s) :
    ∃ s', (syncMessengerSessionData db sid nowUtc).messenger_sessions.find?
            (fun t => t.session_id == sid) = some s' ∧
      s'.message_count = (db.chat_messages.filter fun m => m.session_id == sid).length ∧
      (∀ lm, latestMessage? (db.chat_messages.filter fun m => m.session_id == sid) = some lm →
        s'.last_message_time = toUtcNaive lm.dateTime ∧
        lm ∈ (db.chat_messages.filter fun m => m.session_id == sid) ∧
        ∀ m ∈ (db.chat_messages.filter fun m => m.session_id == sid),
          toUtcNaive m.dateTime ≤ toUtcNaive lm.dateTime) := by
  let g : MessengerSession → MessengerSession := fun t =>
    { t with
      message_count := (db.chat_messages.filter fun m => m.session_id == sid).length
      last_message_time :=
        match latestMessage? (db.chat_messages.filter fun m => m.session_id == sid) with
        | some m => toUtcNaive m.dateTime
        | none => t.last_message_time
      completion_status :=
        computeSyncStatus (db.chat_messages.filter fun m => m.session_id == sid) }
  have hupd := find?_key_map_update (fun t : MessengerSession => t.session_id) sid
    g (fun _ => rfl) db.messenger_sessions s hfind
  refine ⟨g s, ?_, rfl, ?_⟩
  · simp only [syncMessengerSessionData, hfind]
    exact hupd
  · intro lm hlm
    refine ⟨?_, latestMessage?_mem _ lm hlm, latestMessage?_max _ lm hlm⟩
    show (match latestMessage? (db.chat_messages.filter fun m => m.session_id == sid) with
      | some m => toUtcNaive m.dateTime
      | none => s.last_message_time) = toUtcNaive lm.dateTime
    rw [hlm]

/-- A concrete database for the C10 witness: one session and two stored
messages, the later one timezone-aware. -/
def c10db : DB :=
  { chat_messages :=
      [{ session_id := "s1", dateTime := { naiveUtc := 5 }, userAi := some "user",
         messageStr := some "hi" },
       { session_id := "s1", dateTime := { naiveUtc := 9, tzAware := true },
         userAi := some "ai", messageStr := some "hello" }]
    messenger_sessions :=
      [{ id := 1, session_id := "s1", conversation_start := 5, last_message_time := 5 }]
    leads := []
    next_session_pk := 2 }

/-- Witness for C10: syncing the concrete session recomputes its message
count and last-message time from the two stored messages. -/
theorem sync_recomputes_witness :
    ∃ s', (syncMessengerSessionData c10db "s1" 100).messenger_sessions.find?
            (fun t => t.session_id == "s1") = some s' ∧
      s'.message_count = (c10db.chat_messages.filter fun m => m.session_id == "s1").length ∧
      (∀ lm, latestMessage? (c10db.chat_messages.filter fun m => m.session_id == "s1") = some lm →
        s'.last_message_time = toUtcNaive lm.dateTime ∧
        lm ∈ (c10db.chat_messages.filter fun m => m.session_id == "s1") ∧
        ∀ m ∈ (c10db.chat_messages.filter fun m => m.session_id == "s1"),
          toUtcNaive m.dateTime ≤ toUtcNaive lm.dateTime) :=
  sync_recomputes_count_and_last_time c10db "s1" 100
    { id := 1, session_id := "s1", conversation_start := 5, last_message_time := 5 }
    (by decide)

end Platform5ive
